import Mathlib

/-!
# LED Tomato firmware: timer state machine, configuration handler and colour parsing

A shallow embedding of `esp32-firmware/src/main.cpp` (with the constants of
`esp32-firmware/include/config.h`).  The global singletons `pomodoroConfig` and
`pomodoroTimer` become fields of an explicit `Device` record that every handler
receives and returns; `millis()` becomes an explicit argument `now`.

Machine integers are natural numbers / integers with explicit wrap-around: the target is
the ESP32 (ILP32), so `unsigned long` and `uint32_t` are 32 bits wide, `long` is a 32-bit
two's complement integer and `uint8_t` is 8 bits wide.
-/

namespace LedTomato

/-! ## Constants of `config.h` -/

def LED_COUNT : Nat := 30
def LED_BRIGHTNESS : Nat := 128
def DEFAULT_WORK_TIME : Nat := 25 * 60 * 1000
def DEFAULT_SHORT_BREAK : Nat := 5 * 60 * 1000
def DEFAULT_LONG_BREAK : Nat := 15 * 60 * 1000
def BREATHING_SPEED : Nat := 20

/-! ## Machine arithmetic -/

/-- Number of values of a 32-bit `unsigned long`. -/
def ULONG_RANGE : Nat := 4294967296

/-- Largest value of a 32-bit `long`. -/
def LONG_MAX : Int := 2147483647

/-- Smallest value of a 32-bit `long`. -/
def LONG_MIN : Int := -2147483648

/-- Conversion of a `long` to `unsigned long` (reduction modulo 2^32). -/
def toULong (x : Int) : Nat := (x % 4294967296).toNat

/-- Conversion of a `long` to `uint8_t` (reduction modulo 2^8). -/
def toUInt8 (x : Int) : Nat := (x % 256).toNat

/-- The difference `a - b` of two `unsigned long` values, computed modulo 2^32. -/
def ulongSub (a b : Nat) : Nat := (a + ULONG_RANGE - b % ULONG_RANGE) % ULONG_RANGE

/-- The colour packing of the LED strip library: `(r << 16) | (g << 8) | b` on 8-bit
components. -/
def Color (r g b : Nat) : Nat := (r <<< 16) ||| (g <<< 8) ||| b

/-! ## Data model -/

inductive PomodoroState where
  | IDLE
  | WORKING
  | SHORT_BREAK
  | LONG_BREAK
deriving DecidableEq, Repr

structure PomodoroConfig where
  workTime : Nat
  shortBreakTime : Nat
  longBreakTime : Nat
  workColor : Nat
  breakColor : Nat
  workAnimation : Bool
  breakAnimation : Bool
  brightness : Nat
deriving DecidableEq, Repr

/-- The initial value of the global `pomodoroConfig`. -/
def pomodoroConfig : PomodoroConfig :=
  { workTime := DEFAULT_WORK_TIME
    shortBreakTime := DEFAULT_SHORT_BREAK
    longBreakTime := DEFAULT_LONG_BREAK
    workColor := Color 255 0 0
    breakColor := Color 0 255 0
    workAnimation := false
    breakAnimation := true
    brightness := LED_BRIGHTNESS }

structure PomodoroTimer where
  state : PomodoroState
  startTime : Nat
  duration : Nat
  session : Nat
  running : Bool
deriving DecidableEq, Repr

/-- The initial value of the global `pomodoroTimer`. -/
def pomodoroTimer : PomodoroTimer :=
  { state := PomodoroState.IDLE, startTime := 0, duration := 0, session := 0, running := false }

/-- The two global singletons the handlers read and write. -/
structure Device where
  pomodoroConfig : PomodoroConfig
  pomodoroTimer : PomodoroTimer
deriving DecidableEq, Repr

/-- The JSON acknowledgement `success` / `message` sent by the POST handlers. -/
structure Ack where
  success : Bool
  message : String
deriving DecidableEq, Repr

/-- The two routes that `setupRoutes` binds to `handlePomodoroControl`. -/
inductive ControlUrl where
  | start
  | stop
deriving DecidableEq, Repr

/-! ## Timer engine -/

/-- Embedding of `handlePomodoroControl`: `type` is the POST parameter `type` when the
request has one, `now` is the value of `millis()`. -/
def handlePomodoroControl (d : Device) (url : ControlUrl) (type : Option String) (now : Nat) :
    Device × Ack :=
  match url with
  | ControlUrl.start =>
    match type with
    | some type =>
      let t0 : PomodoroTimer := { d.pomodoroTimer with running := true, startTime := now }
      let t1 : PomodoroTimer :=
        if type = "work" then
          { t0 with state := PomodoroState.WORKING, duration := d.pomodoroConfig.workTime }
        else if type = "short_break" then
          { t0 with state := PomodoroState.SHORT_BREAK,
                    duration := d.pomodoroConfig.shortBreakTime }
        else if type = "long_break" then
          { t0 with state := PomodoroState.LONG_BREAK,
                    duration := d.pomodoroConfig.longBreakTime }
        else t0
      ({ d with pomodoroTimer := t1 }, { success := true, message := "Pomodoro started" })
    | none => (d, { success := false, message := "Missing type parameter" })
  | ControlUrl.stop =>
    ({ d with pomodoroTimer :=
        { d.pomodoroTimer with running := false, state := PomodoroState.IDLE } },
     { success := true, message := "Pomodoro stopped" })

/-- The frames of the completion flash: three times white, then off. -/
def completionFlash : List Nat :=
  (List.range 3).flatMap fun _ => [Color 255 255 255, Color 0 0 0]

/-- Embedding of `updatePomodoroTimer` at `millis() = now`: the new timer together with the
solid frames shown by the completion flash (empty when the phase has not expired). -/
def updatePomodoroTimer (t : PomodoroTimer) (now : Nat) : PomodoroTimer × List Nat :=
  if t.running then
    let elapsed := ulongSub now t.startTime
    if elapsed ≥ t.duration then
      ({ t with running := false, state := PomodoroState.IDLE }, completionFlash)
    else (t, [])
  else (t, [])

/-- The C library's `isspace` (space, and the control characters 9 to 13). -/
def isspace (c : Char) : Bool := c.toNat = 32 ∨ (9 ≤ c.toNat ∧ c.toNat ≤ 13)

/-- The value of a character as a digit (`0`-`9`, then letters of either case from 10 on),
as `strtol` reads it. -/
def digitValue (c : Char) : Option Nat :=
  if 48 ≤ c.toNat ∧ c.toNat ≤ 57 then some (c.toNat - 48)
  else if 97 ≤ c.toNat ∧ c.toNat ≤ 122 then some (c.toNat - 97 + 10)
  else if 65 ≤ c.toNat ∧ c.toNat ≤ 90 then some (c.toNat - 65 + 10)
  else none

/-- The digit loop of `strtol`: accumulates digits below `base` and stops at the first
character that is not one. -/
def strtolDigits (base : Nat) : Nat → List Char → Nat
  | acc, [] => acc
  | acc, c :: cs =>
    match digitValue c with
    | some v => if v < base then strtolDigits base (acc * base + v) cs else acc
    | none => acc

/-- The magnitude `strtol` reads after the sign: for base 16 an optional `0x` / `0X` is
skipped, then the digits are accumulated. -/
def strtolMagnitude (s : List Char) (base : Nat) : Int :=
  if base = 16 ∧ s.head? = some '0' ∧ (s.tail.head? = some 'x' ∨ s.tail.head? = some 'X')
  then (strtolDigits base 0 (s.drop 2) : Nat)
  else (strtolDigits base 0 s : Nat)

/-- The part of `strtol` after the leading white space: an optional sign, the magnitude, and
the saturation of an out-of-range value to `LONG_MIN` / `LONG_MAX`. -/
def strtolSigned (s : List Char) (base : Nat) : Int :=
  if s.head? = some '-' then max LONG_MIN (-strtolMagnitude s.tail base)
  else if s.head? = some '+' then min LONG_MAX (strtolMagnitude s.tail base)
  else min LONG_MAX (strtolMagnitude s base)

/-- The C library's `strtol(nptr, NULL, base)` for `base` 10 or 16 on a target whose `long`
has 32 bits: leading white space, an optional sign, for base 16 an optional `0x` / `0X`,
then the longest run of digits; 0 when there is no digit, `LONG_MAX` / `LONG_MIN` when the
value is out of range. -/
def strtol (nptr : List Char) (base : Nat) : Int :=
  strtolSigned (nptr.dropWhile isspace) base

/-- Arduino `String::toInt()`: `atol` of the text, a `long`. -/
def toInt (s : String) : Int := strtol s.data 10

/-- The digit table `"0123456789abcdef"` of `ultoa`. -/
def digitChar (d : Nat) : Char := ("0123456789abcdef".data).getD d '0'

/-- The digit loop of `ultoa`: emits the digits of `quotient` least significant first; each
new digit is put in front of `out`, which is the reversal `ultoa` performs at the end. -/
def ultoaLoop (base : Nat) : Nat → Nat → List Char → List Char
  | 0, _, out => out
  | fuel + 1, quotient, out =>
    let tmp := quotient / base
    let out := digitChar (quotient - tmp * base) :: out
    if tmp = 0 then out else ultoaLoop base fuel tmp out

/-- Arduino `String(value, base)` for an `unsigned long`: `ultoa`, at most 32 digits. -/
def ultoa (value : Nat) (base : Nat) : String := String.mk (ultoaLoop base 32 value [])

/-- Embedding of `parseColor`.  On the `long` value `color`, `>>` is the arithmetic shift
and `& 0xFF` keeps the low eight bits, which is the remainder modulo 256. -/
def parseColor (colorStr : String) : Nat :=
  let colorStr := if colorStr.data.head? = some '#' then colorStr.data.tail else colorStr.data
  let color : Int := strtol colorStr 16
  let r := toUInt8 ((color >>> (16 : Nat)) % 256)
  let g := toUInt8 ((color >>> (8 : Nat)) % 256)
  let b := toUInt8 (color % 256)
  Color r g b

/-! ## Configuration handler -/

/-- The POST parameters of `/api/pomodoro/config`; `none` when the request lacks the
parameter. -/
structure ConfigParams where
  workTime : Option String
  shortBreakTime : Option String
  longBreakTime : Option String
  workColor : Option String
  breakColor : Option String
  workAnimation : Option String
  breakAnimation : Option String
  brightness : Option String
deriving DecidableEq, Repr

/-- A request without any parameter. -/
def noParams : ConfigParams :=
  { workTime := none, shortBreakTime := none, longBreakTime := none, workColor := none,
    breakColor := none, workAnimation := none, breakAnimation := none, brightness := none }

/-- The two methods that `setupRoutes` binds to `handlePomodoroConfig`. -/
inductive HttpMethod where
  | HTTP_GET
  | HTTP_POST
deriving DecidableEq, Repr

/-- The JSON document `handlePomodoroConfig` answers with. -/
inductive ConfigReply where
  | current (workTime shortBreakTime longBreakTime : Nat) (workColor breakColor : String)
      (workAnimation breakAnimation : Bool) (brightness : Nat)
  | updated (ack : Ack)
deriving DecidableEq, Repr

/-- The seconds-to-milliseconds assignment `x = value.toInt() * 1000` into an
`unsigned long` (the product is kept modulo 2^32). -/
def secondsParam (value : String) : Nat := toULong (toInt value * 1000)

/-- Embedding of `handlePomodoroConfig`. -/
def handlePomodoroConfig (d : Device) (method : HttpMethod) (p : ConfigParams) :
    Device × ConfigReply :=
  match method with
  | HttpMethod.HTTP_GET =>
    let c := d.pomodoroConfig
    (d, ConfigReply.current (c.workTime / 1000) (c.shortBreakTime / 1000)
          (c.longBreakTime / 1000) (ultoa c.workColor 16) (ultoa c.breakColor 16)
          c.workAnimation c.breakAnimation c.brightness)
  | HttpMethod.HTTP_POST =>
    let c := d.pomodoroConfig
    let c := match p.workTime with
      | some v => { c with workTime := secondsParam v }
      | none => c
    let c := match p.shortBreakTime with
      | some v => { c with shortBreakTime := secondsParam v }
      | none => c
    let c := match p.longBreakTime with
      | some v => { c with longBreakTime := secondsParam v }
      | none => c
    let c := match p.workColor with
      | some v => { c with workColor := parseColor v }
      | none => c
    let c := match p.breakColor with
      | some v => { c with breakColor := parseColor v }
      | none => c
    let c := match p.workAnimation with
      | some v => { c with workAnimation := decide (v = "true") }
      | none => c
    let c := match p.breakAnimation with
      | some v => { c with breakAnimation := decide (v = "true") }
      | none => c
    let c := match p.brightness with
      | some v => { c with brightness := toUInt8 (toInt v) }
      | none => c
    ({ d with pomodoroConfig := c },
     ConfigReply.updated { success := true, message := "Configuration updated" })

/-- The acknowledgement of a configuration request, when it has one. -/
def ConfigReply.ack? : ConfigReply → Option Ack
  | ConfigReply.updated a => some a
  | ConfigReply.current .. => none

/-! ## Breathing animation -/

/-- The rounded `float` arithmetic of the animation: `inc x` is the `float` stored by
`x += 0.05` and `dec x` the one stored by `x -= 0.05` (finite `float` values are rational
numbers). -/
structure FloatStep where
  inc : ℚ → ℚ
  dec : ℚ → ℚ

/-- Exact arithmetic, the idealised instance of `FloatStep`. -/
def exactStep : FloatStep := { inc := fun x => x + 1 / 20, dec := fun x => x - 1 / 20 }

/-- The globals `lastAnimationUpdate`, `breathingPhase`, `breathingDirection`. -/
structure AnimationState where
  lastAnimationUpdate : Nat
  breathingPhase : ℚ
  breathingDirection : Bool
deriving DecidableEq

/-- The initial values of the animation globals. -/
def animationInit : AnimationState :=
  { lastAnimationUpdate := 0, breathingPhase := 0, breathingDirection := true }

/-- One animation step: the phase / direction update inside `breathingAnimation`. -/
def breathingStep (F : FloatStep) (a : AnimationState) : AnimationState :=
  if a.breathingDirection then
    let phase := F.inc a.breathingPhase
    if phase ≥ 1 then { a with breathingPhase := 1, breathingDirection := false }
    else { a with breathingPhase := phase }
  else
    let phase := F.dec a.breathingPhase
    if phase ≤ 0 then { a with breathingPhase := 0, breathingDirection := true }
    else { a with breathingPhase := phase }

/-- Embedding of the state update of `breathingAnimation` at `millis() = now`: a step is
taken only when more than `BREATHING_SPEED` ms have passed since the last one. -/
def breathingAnimation (F : FloatStep) (a : AnimationState) (now : Nat) : AnimationState :=
  if ulongSub now a.lastAnimationUpdate > BREATHING_SPEED then
    breathingStep F { a with lastAnimationUpdate := now }
  else a

/-- The state after `n` animation steps. -/
def breathingSteps (F : FloatStep) : Nat → AnimationState → AnimationState
  | 0, a => a
  | n + 1, a => breathingSteps F n (breathingStep F a)

/-- The state after calls of `breathingAnimation` at the successive times `nows`. -/
def breathingCalls (F : FloatStep) (a : AnimationState) (nows : List Nat) : AnimationState :=
  nows.foldl (breathingAnimation F) a

/-! ## Command sequences -/

/-- What the device can be asked to do: the three HTTP commands and a pass of `loop`. -/
inductive Command where
  | start (type : Option String) (now : Nat)
  | stop
  | set_config (params : ConfigParams)
  | tick (now : Nat)
deriving DecidableEq, Repr

/-- The device after one command. -/
def Device.step (d : Device) : Command → Device
  | Command.start type now => (handlePomodoroControl d ControlUrl.start type now).1
  | Command.stop => (handlePomodoroControl d ControlUrl.stop none 0).1
  | Command.set_config params => (handlePomodoroConfig d HttpMethod.HTTP_POST params).1
  | Command.tick now => { d with pomodoroTimer := (updatePomodoroTimer d.pomodoroTimer now).1 }

/-- The device after a sequence of commands. -/
def Device.run (d : Device) (cs : List Command) : Device := cs.foldl Device.step d

/-- The device after a sequence of `set_config` requests. -/
def Device.configure (d : Device) (ps : List ConfigParams) : Device :=
  ps.foldl (fun d p => (handlePomodoroConfig d HttpMethod.HTTP_POST p).1) d


/-! ## Reading hexadecimal text -/

/-- The C library's `isxdigit`: the characters `strtol` accepts as digits in base 16. -/
def isxdigit (c : Char) : Bool :=
  match digitValue c with
  | some v => decide (v < 16)
  | none => false

/-- The C library's `isdigit`: the characters `strtol` accepts as digits in base 10. -/
def isdigit (c : Char) : Bool := 48 ≤ c.toNat ∧ c.toNat ≤ 57

/-- The number a run of hexadecimal digits denotes, most significant digit first. -/
def hexValue (ds : List Char) : Nat :=
  ds.foldl (fun acc c => acc * 16 + (digitValue c).getD 0) 0

/-! ## Sample inputs -/

/-- The device as it boots: default configuration, idle timer. -/
def bootDevice : Device := { pomodoroConfig := pomodoroConfig, pomodoroTimer := pomodoroTimer }

/-- The timer after `start("work")` at tick 0 on the booted device (work time 1500 s). -/
def workTimerAtZero : PomodoroTimer :=
  (handlePomodoroControl bootDevice ControlUrl.start (some "work") 0).1.pomodoroTimer

/-- A set_config request carrying only the colour text "zzzzzz" as work colour. -/
def paramsWorkColorZz : ConfigParams := { noParams with workColor := some "zzzzzz" }

/-- A set_config request carrying the colour text "zzzzzz" and a work time of 60 s. -/
def paramsColorAndTime : ConfigParams :=
  { noParams with workColor := some "zzzzzz", workTime := some "60" }

/-- A set_config request carrying only brightness 999. -/
def paramsBrightness999 : ConfigParams := { noParams with brightness := some "999" }

/-- A set_config request carrying only a work time of 0 seconds. -/
def paramsWorkTimeZero : ConfigParams := { noParams with workTime := some "0" }

/-- A set_config request carrying a work time of 60 s and a short break of -5 s. -/
def paramsDurations : ConfigParams :=
  { noParams with workTime := some "60", shortBreakTime := some "-5" }

/-- A set_config request carrying only the work colour text that get_config emits for the
colour `c`. -/
def paramsWorkColorOf (c : Nat) : ConfigParams := { noParams with workColor := some (ultoa c 16) }

/-- A set_config request carrying only the break colour text that get_config emits for the
colour `c`, with a `#` in front. -/
def paramsBreakColorOf (c : Nat) : ConfigParams :=
  { noParams with breakColor := some ("#" ++ ultoa c 16) }

/-! ## Timer engine: properties -/

theorem ulongSub_of_le (a b : Nat) (ha : a < ULONG_RANGE) (hb : b ≤ a) :
    ulongSub a b = a - b := by
  unfold ulongSub ULONG_RANGE at *
  omega

theorem handlePomodoroConfig_timer (d : Device) (m : HttpMethod) (p : ConfigParams) :
    (handlePomodoroConfig d m p).1.pomodoroTimer = d.pomodoroTimer := by
  cases m <;> rfl

theorem configure_timer (ps : List ConfigParams) (d : Device) :
    (d.configure ps).pomodoroTimer = d.pomodoroTimer := by
  induction ps generalizing d with
  | nil => rfl
  | cons p ps ih =>
    have h := ih (handlePomodoroConfig d HttpMethod.HTTP_POST p).1
    simp only [Device.configure, List.foldl_cons] at h ⊢
    rw [h, handlePomodoroConfig_timer]

/-- C1: a start command of type "work", "short_break" or "long_break" at time `now`
succeeds and leaves the timer running, with `startTime = now`, the matching state and the
matching configured duration of that moment, whatever the timer was before; and no
sequence of later set_config commands changes the timer. -/
theorem start_sets_timer_and_set_config_keeps_it (d : Device) (now : Nat)
    (ps : List ConfigParams) :
    ((handlePomodoroControl d ControlUrl.start (some "work") now).2.success = true ∧
      (handlePomodoroControl d ControlUrl.start (some "work") now).1.pomodoroTimer =
        { state := PomodoroState.WORKING, startTime := now,
          duration := d.pomodoroConfig.workTime, session := d.pomodoroTimer.session,
          running := true } ∧
      ((handlePomodoroControl d ControlUrl.start (some "work") now).1.configure
          ps).pomodoroTimer =
        (handlePomodoroControl d ControlUrl.start (some "work") now).1.pomodoroTimer) ∧
    ((handlePomodoroControl d ControlUrl.start (some "short_break") now).2.success = true ∧
      (handlePomodoroControl d ControlUrl.start (some "short_break") now).1.pomodoroTimer =
        { state := PomodoroState.SHORT_BREAK, startTime := now,
          duration := d.pomodoroConfig.shortBreakTime, session := d.pomodoroTimer.session,
          running := true } ∧
      ((handlePomodoroControl d ControlUrl.start (some "short_break") now).1.configure
          ps).pomodoroTimer =
        (handlePomodoroControl d ControlUrl.start (some "short_break") now).1.pomodoroTimer) ∧
    ((handlePomodoroControl d ControlUrl.start (some "long_break") now).2.success = true ∧
      (handlePomodoroControl d ControlUrl.start (some "long_break") now).1.pomodoroTimer =
        { state := PomodoroState.LONG_BREAK, startTime := now,
          duration := d.pomodoroConfig.longBreakTime, session := d.pomodoroTimer.session,
          running := true } ∧
      ((handlePomodoroControl d ControlUrl.start (some "long_break") now).1.configure
          ps).pomodoroTimer =
        (handlePomodoroControl d ControlUrl.start (some "long_break") now).1.pomodoroTimer) := by
  refine ⟨⟨rfl, ?_, configure_timer _ _⟩, ⟨rfl, ?_, configure_timer _ _⟩,
    ⟨rfl, ?_, configure_timer _ _⟩⟩
  · simp [handlePomodoroControl]
  · simp [handlePomodoroControl]
  · simp [handlePomodoroControl]

/-- C2 (the code at the failing input): on the freshly booted device a start command of
the unrecognised type "pomodoro" at time 5000 is acknowledged with success = true and
leaves the timer running with `startTime = 5000`, still in state IDLE with duration 0. -/
theorem start_unknown_type_is_accepted :
    handlePomodoroControl bootDevice ControlUrl.start (some "pomodoro") 5000 =
      ({ pomodoroConfig := pomodoroConfig,
         pomodoroTimer := { state := PomodoroState.IDLE, startTime := 5000, duration := 0,
                            session := 0, running := true } },
       { success := true, message := "Pomodoro started" }) := by
  decide

/-- C3: for a running timer and `startTime ≤ now`, the tick at `now` stops the timer and
makes it IDLE exactly when `now - startTime ≥ duration`; before that it leaves the timer
as it is; and a tick on a timer that is not running changes nothing. -/
theorem tick_expires_iff_elapsed (t : PomodoroTimer) (now : Nat) (hnow : now < ULONG_RANGE)
    (hstart : t.startTime ≤ now) :
    (t.running = true →
      (((updatePomodoroTimer t now).1.running = false ∧
          (updatePomodoroTimer t now).1.state = PomodoroState.IDLE) ↔
        now - t.startTime ≥ t.duration) ∧
      (now - t.startTime < t.duration → (updatePomodoroTimer t now).1 = t)) ∧
    (t.running = false → (updatePomodoroTimer t now).1 = t) := by
  have hsub := ulongSub_of_le now t.startTime hnow hstart
  refine ⟨fun hrun => ⟨?_, ?_⟩, fun hrun => ?_⟩
  · by_cases h : now - t.startTime ≥ t.duration
    · simp [updatePomodoroTimer, hrun, hsub, h]
    · have h2 : ¬ t.duration ≤ now - t.startTime := h
      simp [updatePomodoroTimer, hrun, hsub, h2]
  · intro h
    have h2 : ¬ t.duration ≤ now - t.startTime := by omega
    simp [updatePomodoroTimer, hrun, hsub, h2]
  · simp [updatePomodoroTimer, hrun]

theorem tick_expires_iff_elapsed_witness :
    (1500000 : Nat) < ULONG_RANGE ∧ workTimerAtZero.startTime ≤ 1500000 ∧
    ((workTimerAtZero.running = true →
      (((updatePomodoroTimer workTimerAtZero 1500000).1.running = false ∧
          (updatePomodoroTimer workTimerAtZero 1500000).1.state = PomodoroState.IDLE) ↔
        1500000 - workTimerAtZero.startTime ≥ workTimerAtZero.duration) ∧
      (1500000 - workTimerAtZero.startTime < workTimerAtZero.duration →
        (updatePomodoroTimer workTimerAtZero 1500000).1 = workTimerAtZero)) ∧
    (workTimerAtZero.running = false →
      (updatePomodoroTimer workTimerAtZero 1500000).1 = workTimerAtZero)) :=
  ⟨by decide, by decide,
   tick_expires_iff_elapsed workTimerAtZero 1500000 (by decide) (by decide)⟩

theorem step_keeps_idle_when_stopped (d : Device) (c : Command)
    (h : d.pomodoroTimer.running = false → d.pomodoroTimer.state = PomodoroState.IDLE) :
    (d.step c).pomodoroTimer.running = false →
      (d.step c).pomodoroTimer.state = PomodoroState.IDLE := by
  cases c with
  | start type now =>
    cases type with
    | none => exact h
    | some ty =>
      intro hr
      simp only [Device.step, handlePomodoroControl] at hr
      split_ifs at hr
  | stop => intro _; rfl
  | set_config params =>
    simp only [Device.step, handlePomodoroConfig_timer]
    exact h
  | tick now =>
    simp only [Device.step, updatePomodoroTimer]
    split_ifs with h1 h2
    · intro _; rfl
    · exact h
    · exact h

theorem run_keeps_idle_when_stopped (cs : List Command) (d : Device)
    (h : d.pomodoroTimer.running = false → d.pomodoroTimer.state = PomodoroState.IDLE) :
    (d.run cs).pomodoroTimer.running = false →
      (d.run cs).pomodoroTimer.state = PomodoroState.IDLE := by
  induction cs generalizing d with
  | nil => exact h
  | cons c cs ih =>
    have h2 := ih (d.step c) (step_keeps_idle_when_stopped d c h)
    simpa only [Device.run, List.foldl_cons] using h2

/-- C8: in every state reached from the initial timer (IDLE, not running), under any
configuration, by any finite sequence of start commands (any type, present or missing),
stop commands, set_config commands and ticks, a timer that is not running is IDLE. -/
theorem stopped_timer_is_idle (config : PomodoroConfig) (cs : List Command) :
    ((Device.mk config pomodoroTimer).run cs).pomodoroTimer.running = false →
      ((Device.mk config pomodoroTimer).run cs).pomodoroTimer.state = PomodoroState.IDLE :=
  run_keeps_idle_when_stopped cs (Device.mk config pomodoroTimer) (fun _ => rfl)

theorem stopped_timer_is_idle_witness :
    ((Device.mk pomodoroConfig pomodoroTimer).run
        [Command.start (some "work") 0, Command.set_config noParams,
          Command.tick 1500000]).pomodoroTimer.running = false ∧
    ((Device.mk pomodoroConfig pomodoroTimer).run
        [Command.start (some "work") 0, Command.set_config noParams,
          Command.tick 1500000]).pomodoroTimer.state = PomodoroState.IDLE :=
  ⟨by decide,
   stopped_timer_is_idle pomodoroConfig
     [Command.start (some "work") 0, Command.set_config noParams, Command.tick 1500000]
     (by decide)⟩

/-! ## Hexadecimal text: reading and writing -/

theorem isxdigit_iff (c : Char) :
    isxdigit c = true ↔ ∃ v, digitValue c = some v ∧ v < 16 := by
  unfold isxdigit
  cases h : digitValue c with
  | none => simp
  | some v => simp

theorem isxdigit_not_isspace (c : Char) (h : isxdigit c = true) : isspace c = false := by
  obtain ⟨v, hv, hlt⟩ := (isxdigit_iff c).1 h
  unfold digitValue at hv
  unfold isspace
  generalize c.toNat = n at hv
  split_ifs at hv with h1 h2 h3
  · simp; omega
  · simp at hv; simp; omega
  · simp at hv; simp; omega

theorem strtolDigits_of_isxdigit (ds : List Char) (acc : Nat)
    (h : ∀ c ∈ ds, isxdigit c = true) :
    strtolDigits 16 acc ds = ds.foldl (fun acc c => acc * 16 + (digitValue c).getD 0) acc := by
  induction ds generalizing acc with
  | nil => rfl
  | cons c cs ih =>
    obtain ⟨v, hv, hlt⟩ := (isxdigit_iff c).1 (h c (List.mem_cons_self _ _))
    have ih2 := ih (acc * 16 + v) (fun x hx => h x (List.mem_cons_of_mem _ hx))
    simp only [strtolDigits, hv, hlt, if_true, List.foldl_cons, Option.getD_some]
    exact ih2

theorem foldl_hex_lt (ds : List Char) (acc : Nat) (h : ∀ c ∈ ds, isxdigit c = true) :
    ds.foldl (fun acc c => acc * 16 + (digitValue c).getD 0) acc
      < (acc + 1) * 16 ^ ds.length := by
  induction ds generalizing acc with
  | nil => simp
  | cons c cs ih =>
    obtain ⟨v, hv, hlt⟩ := (isxdigit_iff c).1 (h c (List.mem_cons_self _ _))
    have ih2 := ih (acc * 16 + v) (fun x hx => h x (List.mem_cons_of_mem _ hx))
    simp only [List.foldl_cons, hv, Option.getD_some, List.length_cons]
    calc List.foldl (fun acc c => acc * 16 + (digitValue c).getD 0) (acc * 16 + v) cs
        < (acc * 16 + v + 1) * 16 ^ cs.length := ih2
      _ ≤ ((acc + 1) * 16) * 16 ^ cs.length := by
          apply Nat.mul_le_mul_right
          omega
      _ = (acc + 1) * 16 ^ (cs.length + 1) := by ring

theorem hexValue_lt (ds : List Char) (h : ∀ c ∈ ds, isxdigit c = true) :
    hexValue ds < 16 ^ ds.length := by
  have := foldl_hex_lt ds 0 h
  simpa [hexValue] using this

theorem strtol_of_isxdigit (c : Char) (cs : List Char)
    (h : ∀ x ∈ c :: cs, isxdigit x = true) :
    strtol (c :: cs) 16 = min LONG_MAX (hexValue (c :: cs) : Nat) := by
  have hc : isxdigit c = true := h c (List.mem_cons_self _ _)
  have hsp : isspace c = false := isxdigit_not_isspace c hc
  have hminus : c ≠ '-' := by
    intro e; subst e; revert hc; decide
  have hplus : c ≠ '+' := by
    intro e; subst e; revert hc; decide
  have hx : cs.head? ≠ some 'x' := by
    intro e
    cases cs with
    | nil => simp at e
    | cons y ys =>
      simp only [List.head?_cons, Option.some.injEq] at e
      subst e
      have := h 'x' (by simp)
      revert this; decide
  have hX : cs.head? ≠ some 'X' := by
    intro e
    cases cs with
    | nil => simp at e
    | cons y ys =>
      simp only [List.head?_cons, Option.some.injEq] at e
      subst e
      have := h 'X' (by simp)
      revert this; decide
  have hd := strtolDigits_of_isxdigit (c :: cs) 0 h
  have hdrop : List.dropWhile isspace (c :: cs) = c :: cs := by
    simp [List.dropWhile_cons, hsp]
  have hmag : strtolMagnitude (c :: cs) 16 = (hexValue (c :: cs) : Nat) := by
    unfold strtolMagnitude
    rw [if_neg]
    · rw [hd]; rfl
    · rintro ⟨-, -, h3 | h3⟩
      · exact hx h3
      · exact hX h3
  unfold strtol strtolSigned
  rw [hdrop, if_neg (by simpa using hminus), if_neg (by simpa using hplus), hmag]

theorem Color_of_bytes (n : Nat) (h : n < 16777216) :
    Color (toUInt8 (((n : Int) >>> (16 : Nat)) % 256)) (toUInt8 (((n : Int) >>> (8 : Nat)) % 256))
      (toUInt8 ((n : Int) % 256)) = n := by
  have e16 : ((n : Int) >>> (16 : Nat)) = ((n / 65536 : Nat) : Int) := by
    rw [Int.shiftRight_eq_div_pow]; norm_num
  have e8 : ((n : Int) >>> (8 : Nat)) = ((n / 256 : Nat) : Int) := by
    rw [Int.shiftRight_eq_div_pow]; norm_num
  have r : toUInt8 (((n : Int) >>> (16 : Nat)) % 256) = n / 65536 := by
    rw [e16]; unfold toUInt8; omega
  have g : toUInt8 (((n : Int) >>> (8 : Nat)) % 256) = n / 256 % 256 := by
    rw [e8]; unfold toUInt8; omega
  have b : toUInt8 ((n : Int) % 256) = n % 256 := by
    unfold toUInt8; omega
  rw [r, g, b]
  unfold Color
  rw [Nat.shiftLeft_eq, Nat.shiftLeft_eq]
  have h1 : n / 65536 * 2 ^ 16 ||| n / 256 % 256 * 2 ^ 8
      = 2 ^ 8 * (n / 65536 * 256 + n / 256 % 256) := by
    have := Nat.mul_add_lt_is_or (show n / 256 % 256 * 2 ^ 8 < 2 ^ 16 by omega) (n / 65536)
    rw [show n / 65536 * 2 ^ 16 = 2 ^ 16 * (n / 65536) by ring, ← this]
    ring
  rw [h1, ← Nat.mul_add_lt_is_or (show n % 256 < 2 ^ 8 by omega)]
  omega

theorem parseColor_of_isxdigit (ds : List Char) (hne : ds ≠ [])
    (h : ∀ x ∈ ds, isxdigit x = true) (hlt : hexValue ds < 16777216) :
    parseColor (String.mk ds) = hexValue ds ∧
      parseColor (String.mk ('#' :: ds)) = hexValue ds := by
  cases ds with
  | nil => exact absurd rfl hne
  | cons c cs =>
    have hc : isxdigit c = true := h c (List.mem_cons_self _ _)
    have hhash : c ≠ '#' := by
      intro e; subst e; revert hc; decide
    have hs := strtol_of_isxdigit c cs h
    have hmin : min LONG_MAX ((hexValue (c :: cs) : Nat) : Int) = (hexValue (c :: cs) : Nat) := by
      unfold LONG_MAX
      omega
    rw [hmin] at hs
    constructor
    · simp only [parseColor, List.head?_cons, Option.some.injEq, hhash, if_false, hs]
      exact Color_of_bytes _ hlt
    · simp only [parseColor, List.head?_cons, if_true, List.tail_cons, hs]
      exact Color_of_bytes _ hlt

theorem strtol_of_no_number (c : Char) (cs : List Char) (hsp : isspace c = false)
    (hminus : c ≠ '-') (hplus : c ≠ '+') (hx : isxdigit c = false) :
    strtol (c :: cs) 16 = 0 := by
  have hzero : c ≠ '0' := by
    intro e; subst e; revert hx; decide
  have hdrop : List.dropWhile isspace (c :: cs) = c :: cs := by
    simp [List.dropWhile_cons, hsp]
  have hdig : strtolDigits 16 0 (c :: cs) = 0 := by
    unfold isxdigit at hx
    cases hv : digitValue c with
    | none => simp [strtolDigits, hv]
    | some v =>
      rw [hv] at hx
      have hge : ¬ v < 16 := by simpa using hx
      simp [strtolDigits, hv, hge]
  have hmag : strtolMagnitude (c :: cs) 16 = 0 := by
    unfold strtolMagnitude
    rw [if_neg]
    · rw [hdig]; rfl
    · rintro ⟨-, h2, -⟩
      simp only [List.head?_cons, Option.some.injEq] at h2
      exact hzero h2
  unfold strtol strtolSigned
  rw [hdrop, if_neg (by simpa using hminus), if_neg (by simpa using hplus), hmag]
  decide

theorem parseColor_of_no_number (c : Char) (cs : List Char) (hsp : isspace c = false)
    (hminus : c ≠ '-') (hplus : c ≠ '+') (hx : isxdigit c = false) :
    parseColor (String.mk ('#' :: c :: cs)) = 0 ∧
      (c ≠ '#' → parseColor (String.mk (c :: cs)) = 0) := by
  have hs := strtol_of_no_number c cs hsp hminus hplus hx
  constructor
  · simp only [parseColor, List.head?_cons, if_true, List.tail_cons, hs]
    decide
  · intro hhash
    simp only [parseColor, List.head?_cons, Option.some.injEq, hhash, if_false, hs]
    decide

theorem digitChar_spec (d : Nat) (h : d < 16) :
    isxdigit (digitChar d) = true ∧ digitValue (digitChar d) = some d := by
  interval_cases d <;> decide

theorem ultoaLoop_hex (fuel : Nat) (q : Nat) (out : List Char) (h : q < 16 ^ (fuel + 1)) :
    ∃ ds : List Char, ultoaLoop 16 (fuel + 1) q out = ds ++ out ∧ ds ≠ [] ∧
      (∀ c ∈ ds, isxdigit c = true) ∧
      ∀ acc, ds.foldl (fun acc c => acc * 16 + (digitValue c).getD 0) acc
        = acc * 16 ^ ds.length + q := by
  induction fuel generalizing q out with
  | zero =>
    have hq : q / 16 = 0 := by omega
    have hd := digitChar_spec q (by omega)
    refine ⟨[digitChar q], ?_, by simp, ?_, ?_⟩
    · simp [ultoaLoop, hq]
    · intro c hc
      simp only [List.mem_singleton] at hc
      rw [hc]; exact hd.1
    · intro acc
      simp [hd.2]
  | succ fuel ih =>
    have hd := digitChar_spec (q - q / 16 * 16) (by omega)
    by_cases hq : q / 16 = 0
    · have hq2 : q - q / 16 * 16 = q := by omega
      rw [hq2] at hd
      refine ⟨[digitChar q], ?_, by simp, ?_, ?_⟩
      · rw [ultoaLoop]
        simp [hq]
      · intro c hc
        simp only [List.mem_singleton] at hc
        rw [hc]; exact hd.1
      · intro acc
        simp [hd.2]
    · have hlt : q / 16 < 16 ^ (fuel + 1) := by
        rw [Nat.div_lt_iff_lt_mul (by norm_num)]
        calc q < 16 ^ (fuel + 1 + 1) := h
          _ = 16 ^ (fuel + 1) * 16 := by ring
      obtain ⟨ds, h1, -, h3, h4⟩ := ih (q / 16) (digitChar (q - q / 16 * 16) :: out) hlt
      refine ⟨ds ++ [digitChar (q - q / 16 * 16)], ?_, by simp, ?_, ?_⟩
      · rw [ultoaLoop]
        simp only [hq, if_false]
        rw [h1]
        simp
      · intro c hc
        rcases List.mem_append.1 hc with hc | hc
        · exact h3 c hc
        · simp only [List.mem_singleton] at hc
          rw [hc]; exact hd.1
      · intro acc
        rw [List.foldl_append, h4 acc]
        simp only [List.foldl_cons, List.foldl_nil, hd.2, Option.getD_some, List.length_append,
          List.length_singleton]
        have e : q / 16 * 16 + (q - q / 16 * 16) = q := by omega
        rw [pow_succ]
        nlinarith [e]

theorem ultoa_hex (value : Nat) (h : value < 4294967296) :
    (ultoa value 16).data ≠ [] ∧ (∀ c ∈ (ultoa value 16).data, isxdigit c = true) ∧
      hexValue (ultoa value 16).data = value := by
  have hlt : value < 16 ^ (31 + 1) := by
    calc value < 4294967296 := h
      _ ≤ 16 ^ (31 + 1) := by norm_num
  obtain ⟨ds, h1, h2, h3, h4⟩ := ultoaLoop_hex 31 value [] hlt
  have e : (ultoa value 16).data = ds := by
    simp only [ultoa]
    rw [h1]; simp
  rw [e]
  refine ⟨h2, h3, ?_⟩
  have := h4 0
  simpa [hexValue] using this

/-! ## Configuration handler: properties -/

theorem handlePomodoroConfig_post (d : Device) (p : ConfigParams) :
    (handlePomodoroConfig d HttpMethod.HTTP_POST p).2 =
        ConfigReply.updated { success := true, message := "Configuration updated" } ∧
    (handlePomodoroConfig d HttpMethod.HTTP_POST p).1.pomodoroConfig =
      { workTime := (p.workTime.map secondsParam).getD d.pomodoroConfig.workTime
        shortBreakTime := (p.shortBreakTime.map secondsParam).getD d.pomodoroConfig.shortBreakTime
        longBreakTime := (p.longBreakTime.map secondsParam).getD d.pomodoroConfig.longBreakTime
        workColor := (p.workColor.map parseColor).getD d.pomodoroConfig.workColor
        breakColor := (p.breakColor.map parseColor).getD d.pomodoroConfig.breakColor
        workAnimation :=
          (p.workAnimation.map fun v => decide (v = "true")).getD d.pomodoroConfig.workAnimation
        breakAnimation :=
          (p.breakAnimation.map fun v => decide (v = "true")).getD
            d.pomodoroConfig.breakAnimation
        brightness :=
          (p.brightness.map fun v => toUInt8 (toInt v)).getD d.pomodoroConfig.brightness } := by
  obtain ⟨a1, a2, a3, a4, a5, a6, a7, a8⟩ := p
  refine ⟨rfl, ?_⟩
  cases a1 <;> cases a2 <;> cases a3 <;> cases a4 <;> cases a5 <;> cases a6 <;> cases a7 <;>
    cases a8 <;> rfl

/-- C5 (counterexample): on the booted device a set_config whose work colour is "zzzzzz"
is acknowledged with success = true and changes the configuration: the work colour,
red before, is 0 afterwards. -/
theorem set_config_invalid_color_counterexample :
    (handlePomodoroConfig bootDevice HttpMethod.HTTP_POST paramsWorkColorZz).2.ack? =
        some { success := true, message := "Configuration updated" } ∧
    (handlePomodoroConfig bootDevice HttpMethod.HTTP_POST
        paramsWorkColorZz).1.pomodoroConfig.workColor = 0 ∧
    bootDevice.pomodoroConfig.workColor = 16711680 ∧
    (handlePomodoroConfig bootDevice HttpMethod.HTTP_POST paramsWorkColorZz).1.pomodoroConfig
      ≠ bootDevice.pomodoroConfig := by
  decide

/-- C5 (amended): every set_config succeeds, whatever its colour texts; each field present
in the request is applied and each absent field is kept; a colour text is stored as
`parseColor` of it, which is 0 when the first character after the optional `#` is neither
white space, a sign nor a hexadecimal digit: the text "zzzzzz" stores the colour 0. -/
theorem set_config_applies_every_field (d : Device) (p : ConfigParams) :
    (handlePomodoroConfig d HttpMethod.HTTP_POST p).2.ack? =
        some { success := true, message := "Configuration updated" } ∧
    (handlePomodoroConfig d HttpMethod.HTTP_POST p).1.pomodoroConfig =
      { workTime := (p.workTime.map secondsParam).getD d.pomodoroConfig.workTime
        shortBreakTime := (p.shortBreakTime.map secondsParam).getD d.pomodoroConfig.shortBreakTime
        longBreakTime := (p.longBreakTime.map secondsParam).getD d.pomodoroConfig.longBreakTime
        workColor := (p.workColor.map parseColor).getD d.pomodoroConfig.workColor
        breakColor := (p.breakColor.map parseColor).getD d.pomodoroConfig.breakColor
        workAnimation :=
          (p.workAnimation.map fun v => decide (v = "true")).getD d.pomodoroConfig.workAnimation
        breakAnimation :=
          (p.breakAnimation.map fun v => decide (v = "true")).getD
            d.pomodoroConfig.breakAnimation
        brightness :=
          (p.brightness.map fun v => toUInt8 (toInt v)).getD d.pomodoroConfig.brightness } ∧
    (∀ (c : Char) (cs : List Char), isspace c = false → c ≠ '-' → c ≠ '+' →
      isxdigit c = false →
      parseColor (String.mk ('#' :: c :: cs)) = 0 ∧
        (c ≠ '#' → parseColor (String.mk (c :: cs)) = 0)) ∧
    parseColor "zzzzzz" = 0 := by
  have h := handlePomodoroConfig_post d p
  refine ⟨?_, h.2, parseColor_of_no_number, by decide⟩
  rw [h.1]; rfl

theorem set_config_applies_every_field_witness :
    (handlePomodoroConfig bootDevice HttpMethod.HTTP_POST
        paramsColorAndTime).1.pomodoroConfig =
      { bootDevice.pomodoroConfig with workColor := 0, workTime := 60000 } ∧
    (handlePomodoroConfig bootDevice HttpMethod.HTTP_POST paramsColorAndTime).2.ack? =
        some { success := true, message := "Configuration updated" } :=
  ⟨by decide, (set_config_applies_every_field bootDevice paramsColorAndTime).1⟩

/-- C6 (counterexample): brightness 999 is stored as 231, not as the clamped value 255. -/
theorem set_config_brightness_counterexample :
    toInt "999" = 999 ∧
    (handlePomodoroConfig bootDevice HttpMethod.HTTP_POST paramsBrightness999).2.ack? =
        some { success := true, message := "Configuration updated" } ∧
    (handlePomodoroConfig bootDevice HttpMethod.HTTP_POST
        paramsBrightness999).1.pomodoroConfig.brightness = 231 ∧
    (231 : Int) ≠ min 255 (max 0 999) := by
  decide

/-- C6 (amended): when the brightness text of a set_config reads as the integer `b`, the
command succeeds and the stored brightness is `b` modulo 256 (the narrowing to `uint8_t`),
which is `b` itself when `0 ≤ b ≤ 255`. -/
theorem set_config_brightness_wraps (d : Device) (p : ConfigParams) (v : String) (b : Int)
    (hp : p.brightness = some v) (hb : toInt v = b) :
    (handlePomodoroConfig d HttpMethod.HTTP_POST p).2.ack? =
        some { success := true, message := "Configuration updated" } ∧
    (((handlePomodoroConfig d HttpMethod.HTTP_POST p).1.pomodoroConfig.brightness : Nat) : Int)
      = b % 256 ∧
    (0 ≤ b → b ≤ 255 →
      (((handlePomodoroConfig d HttpMethod.HTTP_POST p).1.pomodoroConfig.brightness : Nat) : Int)
        = b) := by
  have h := handlePomodoroConfig_post d p
  have hbr : (handlePomodoroConfig d HttpMethod.HTTP_POST p).1.pomodoroConfig.brightness
      = toUInt8 b := by
    rw [h.2, hp, ← hb]; rfl
  refine ⟨by rw [h.1]; rfl, ?_, ?_⟩
  · rw [hbr]; unfold toUInt8; omega
  · intro h0 h1
    rw [hbr]; unfold toUInt8; omega

theorem set_config_brightness_wraps_witness :
    paramsBrightness999.brightness = some "999" ∧ toInt "999" = 999 ∧
    ((handlePomodoroConfig bootDevice HttpMethod.HTTP_POST paramsBrightness999).2.ack? =
        some { success := true, message := "Configuration updated" } ∧
    (((handlePomodoroConfig bootDevice HttpMethod.HTTP_POST
        paramsBrightness999).1.pomodoroConfig.brightness : Nat) : Int) = 999 % 256 ∧
    ((0 : Int) ≤ 999 → (999 : Int) ≤ 255 →
      (((handlePomodoroConfig bootDevice HttpMethod.HTTP_POST
        paramsBrightness999).1.pomodoroConfig.brightness : Nat) : Int) = 999)) :=
  ⟨by decide, by decide,
   set_config_brightness_wraps bootDevice paramsBrightness999 "999" 999 (by decide)
     (by decide)⟩

theorem secondsParam_pos (v : String)
    (h : toInt v ≠ 0 ∧ -2147483 ≤ toInt v ∧ toInt v ≤ 2147483) : 0 < secondsParam v := by
  unfold secondsParam toULong
  omega

theorem getD_map_secondsParam_pos (o : Option String) (old : Nat) (hold : 0 < old)
    (h : ∀ v, o = some v → toInt v ≠ 0 ∧ -2147483 ≤ toInt v ∧ toInt v ≤ 2147483) :
    0 < (o.map secondsParam).getD old := by
  cases o with
  | none => exact hold
  | some v => exact secondsParam_pos v (h v rfl)

theorem getD_map_secondsParam_spec (o : Option String) (old : Nat) :
    (o = none → (o.map secondsParam).getD old = old) ∧
    (∀ v, o = some v →
      (toInt v = 0 → (o.map secondsParam).getD old = 0) ∧
      (0 < toInt v → toInt v ≤ 2147483 →
        (((o.map secondsParam).getD old : Nat) : Int) = toInt v * 1000) ∧
      (toInt v < 0 → -2147483 ≤ toInt v →
        (((o.map secondsParam).getD old : Nat) : Int) = 4294967296 + toInt v * 1000)) := by
  constructor
  · intro h; subst h; rfl
  · intro v h
    subst h
    simp only [Option.map_some', Option.getD_some]
    unfold secondsParam toULong
    refine ⟨fun h0 => ?_, fun h1 h2 => ?_, fun h1 h2 => ?_⟩
    · rw [h0]; rfl
    · omega
    · omega

theorem toInt_of_no_number (c : Char) (cs : List Char) (hsp : isspace c = false)
    (hminus : c ≠ '-') (hplus : c ≠ '+') (hd : isdigit c = false) :
    toInt (String.mk (c :: cs)) = 0 := by
  have hdrop : List.dropWhile isspace (c :: cs) = c :: cs := by
    simp [List.dropWhile_cons, hsp]
  have hdig : strtolDigits 10 0 (c :: cs) = 0 := by
    have hr : ¬ (48 ≤ c.toNat ∧ c.toNat ≤ 57) := by
      intro h; simp [isdigit, h] at hd
    cases hv : digitValue c with
    | none => simp [strtolDigits, hv]
    | some v =>
      have hge : ¬ v < 10 := by
        unfold digitValue at hv
        rw [if_neg hr] at hv
        split_ifs at hv
        · simp at hv; omega
        · simp at hv; omega
      simp [strtolDigits, hv, hge]
  have hmag : strtolMagnitude (c :: cs) 10 = 0 := by
    unfold strtolMagnitude
    rw [if_neg (by simp), hdig]; rfl
  show strtol (c :: cs) 10 = 0
  unfold strtol strtolSigned
  rw [hdrop, if_neg (by simpa using hminus), if_neg (by simpa using hplus), hmag]
  decide

/-- C7 (counterexample): the booted device has three positive durations; after a
set_config whose work time is "0" the work time is 0. -/
theorem set_config_zero_duration_counterexample :
    0 < bootDevice.pomodoroConfig.workTime ∧ 0 < bootDevice.pomodoroConfig.shortBreakTime ∧
    0 < bootDevice.pomodoroConfig.longBreakTime ∧
    (handlePomodoroConfig bootDevice HttpMethod.HTTP_POST
        paramsWorkTimeZero).1.pomodoroConfig.workTime = 0 := by
  decide

/-- C7 (amended): a set_config keeps each duration that is absent from the request and
stores each duration that is present as its text read as a `long` number of seconds `k`,
times 1000, in an `unsigned long`: 0 when `k = 0`, `k * 1000` when `0 < k ≤ 2147483`, and
`2^32 + k * 1000` when `-2147483 ≤ k < 0`.  Hence, when the three durations are positive
and every duration text present reads as a non-zero `k` between -2147483 and 2147483, the
three durations are positive after the command.  The empty text, and any text whose first
character is neither white space, a sign nor a decimal digit, reads as 0. -/
theorem set_config_keeps_durations_positive (d : Device) (p : ConfigParams) :
    ((p.workTime = none →
        (handlePomodoroConfig d HttpMethod.HTTP_POST p).1.pomodoroConfig.workTime =
          d.pomodoroConfig.workTime) ∧
      (∀ v, p.workTime = some v →
        (toInt v = 0 →
          (handlePomodoroConfig d HttpMethod.HTTP_POST p).1.pomodoroConfig.workTime = 0) ∧
        (0 < toInt v → toInt v ≤ 2147483 →
          (((handlePomodoroConfig d HttpMethod.HTTP_POST p).1.pomodoroConfig.workTime : Nat)
            : Int) = toInt v * 1000) ∧
        (toInt v < 0 → -2147483 ≤ toInt v →
          (((handlePomodoroConfig d HttpMethod.HTTP_POST p).1.pomodoroConfig.workTime : Nat)
            : Int) = 4294967296 + toInt v * 1000))) ∧
    ((p.shortBreakTime = none →
        (handlePomodoroConfig d HttpMethod.HTTP_POST p).1.pomodoroConfig.shortBreakTime =
          d.pomodoroConfig.shortBreakTime) ∧
      (∀ v, p.shortBreakTime = some v →
        (toInt v = 0 →
          (handlePomodoroConfig d HttpMethod.HTTP_POST p).1.pomodoroConfig.shortBreakTime
            = 0) ∧
        (0 < toInt v → toInt v ≤ 2147483 →
          (((handlePomodoroConfig d HttpMethod.HTTP_POST p).1.pomodoroConfig.shortBreakTime
            : Nat) : Int) = toInt v * 1000) ∧
        (toInt v < 0 → -2147483 ≤ toInt v →
          (((handlePomodoroConfig d HttpMethod.HTTP_POST p).1.pomodoroConfig.shortBreakTime
            : Nat) : Int) = 4294967296 + toInt v * 1000))) ∧
    ((p.longBreakTime = none →
        (handlePomodoroConfig d HttpMethod.HTTP_POST p).1.pomodoroConfig.longBreakTime =
          d.pomodoroConfig.longBreakTime) ∧
      (∀ v, p.longBreakTime = some v →
        (toInt v = 0 →
          (handlePomodoroConfig d HttpMethod.HTTP_POST p).1.pomodoroConfig.longBreakTime
            = 0) ∧
        (0 < toInt v → toInt v ≤ 2147483 →
          (((handlePomodoroConfig d HttpMethod.HTTP_POST p).1.pomodoroConfig.longBreakTime
            : Nat) : Int) = toInt v * 1000) ∧
        (toInt v < 0 → -2147483 ≤ toInt v →
          (((handlePomodoroConfig d HttpMethod.HTTP_POST p).1.pomodoroConfig.longBreakTime
            : Nat) : Int) = 4294967296 + toInt v * 1000))) ∧
    (0 < d.pomodoroConfig.workTime → 0 < d.pomodoroConfig.shortBreakTime →
      0 < d.pomodoroConfig.longBreakTime →
      (∀ v, p.workTime = some v →
        toInt v ≠ 0 ∧ -2147483 ≤ toInt v ∧ toInt v ≤ 2147483) →
      (∀ v, p.shortBreakTime = some v →
        toInt v ≠ 0 ∧ -2147483 ≤ toInt v ∧ toInt v ≤ 2147483) →
      (∀ v, p.longBreakTime = some v →
        toInt v ≠ 0 ∧ -2147483 ≤ toInt v ∧ toInt v ≤ 2147483) →
      0 < (handlePomodoroConfig d HttpMethod.HTTP_POST p).1.pomodoroConfig.workTime ∧
      0 < (handlePomodoroConfig d HttpMethod.HTTP_POST p).1.pomodoroConfig.shortBreakTime ∧
      0 < (handlePomodoroConfig d HttpMethod.HTTP_POST p).1.pomodoroConfig.longBreakTime) ∧
    toInt "" = 0 ∧
    (∀ (c : Char) (cs : List Char), isspace c = false → c ≠ '-' → c ≠ '+' →
      isdigit c = false → toInt (String.mk (c :: cs)) = 0) := by
  rw [(handlePomodoroConfig_post d p).2]
  refine ⟨getD_map_secondsParam_spec _ _, getD_map_secondsParam_spec _ _,
    getD_map_secondsParam_spec _ _, ?_, by decide, toInt_of_no_number⟩
  intro hw hs hl hpw hps hpl
  exact ⟨getD_map_secondsParam_pos _ _ hw hpw, getD_map_secondsParam_pos _ _ hs hps,
    getD_map_secondsParam_pos _ _ hl hpl⟩

theorem set_config_keeps_durations_positive_witness :
    bootDevice.pomodoroConfig.workTime = 1500000 ∧
    bootDevice.pomodoroConfig.shortBreakTime = 300000 ∧
    (handlePomodoroConfig bootDevice HttpMethod.HTTP_POST
        paramsDurations).1.pomodoroConfig.workTime = 60000 ∧
    (handlePomodoroConfig bootDevice HttpMethod.HTTP_POST
        paramsDurations).1.pomodoroConfig.shortBreakTime = 4294962296 ∧
    (handlePomodoroConfig bootDevice HttpMethod.HTTP_POST
        paramsDurations).1.pomodoroConfig.longBreakTime = 900000 ∧
    (((handlePomodoroConfig bootDevice HttpMethod.HTTP_POST
        paramsDurations).1.pomodoroConfig.workTime : Nat) : Int) = toInt "60" * 1000 ∧
    (((handlePomodoroConfig bootDevice HttpMethod.HTTP_POST
        paramsDurations).1.pomodoroConfig.shortBreakTime : Nat) : Int)
      = 4294967296 + toInt "-5" * 1000 ∧
    (0 < (handlePomodoroConfig bootDevice HttpMethod.HTTP_POST
        paramsDurations).1.pomodoroConfig.workTime ∧
     0 < (handlePomodoroConfig bootDevice HttpMethod.HTTP_POST
        paramsDurations).1.pomodoroConfig.shortBreakTime ∧
     0 < (handlePomodoroConfig bootDevice HttpMethod.HTTP_POST
        paramsDurations).1.pomodoroConfig.longBreakTime) :=
  ⟨by decide, by decide, by decide, by decide, by decide,
   ((set_config_keeps_durations_positive bootDevice paramsDurations).1.2 "60" rfl).2.1
     (by decide) (by decide),
   ((set_config_keeps_durations_positive bootDevice paramsDurations).2.1.2 "-5" rfl).2.2
     (by decide) (by decide),
   (set_config_keeps_durations_positive bootDevice paramsDurations).2.2.2.1
     (by decide) (by decide) (by decide)
     (fun v hv => by
       have e : v = "60" := (Option.some.inj hv).symm
       subst e; decide)
     (fun v hv => by
       have e : v = "-5" := (Option.some.inj hv).symm
       subst e; decide)
     (fun v hv => by cases hv)⟩

/-- C10: get_config emits, for every device, the work and break colours as the texts
`String(workColor, HEX)` and `String(breakColor, HEX)`; for every 24-bit colour `c`,
`parseColor` of the text `String(c, HEX)`, with or without a leading `#`, is `c` again, so
that a set_config carrying that text as work colour or break colour stores `c`. -/
theorem color_round_trip (c : Nat) (hc : c ≤ 0xFFFFFF) :
    (∀ (d : Device) (p : ConfigParams),
      (handlePomodoroConfig d HttpMethod.HTTP_GET p).2 =
        ConfigReply.current (d.pomodoroConfig.workTime / 1000)
          (d.pomodoroConfig.shortBreakTime / 1000) (d.pomodoroConfig.longBreakTime / 1000)
          (ultoa d.pomodoroConfig.workColor 16) (ultoa d.pomodoroConfig.breakColor 16)
          d.pomodoroConfig.workAnimation d.pomodoroConfig.breakAnimation
          d.pomodoroConfig.brightness) ∧
    parseColor (ultoa c 16) = c ∧ parseColor ("#" ++ ultoa c 16) = c ∧
    (∀ d : Device,
      (handlePomodoroConfig d HttpMethod.HTTP_POST
        (paramsWorkColorOf c)).1.pomodoroConfig.workColor = c ∧
      (handlePomodoroConfig d HttpMethod.HTTP_POST
        (paramsBreakColorOf c)).1.pomodoroConfig.breakColor = c) := by
  obtain ⟨h1, h2, h3⟩ := ultoa_hex c (by omega)
  have h := parseColor_of_isxdigit (ultoa c 16).data h1 h2 (by rw [h3]; omega)
  rw [h3] at h
  have e : "#" ++ ultoa c 16 = String.mk ('#' :: (ultoa c 16).data) := by
    apply String.ext
    simp
  have hsharp : parseColor ("#" ++ ultoa c 16) = c := by
    rw [e]; exact h.2
  refine ⟨fun d p => rfl, h.1, hsharp, fun d => ⟨?_, ?_⟩⟩
  · rw [(handlePomodoroConfig_post d (paramsWorkColorOf c)).2]
    exact h.1
  · rw [(handlePomodoroConfig_post d (paramsBreakColorOf c)).2]
    exact hsharp

theorem color_round_trip_witness :
    (0xFF00 : Nat) ≤ 0xFFFFFF ∧ ultoa 0xFF00 16 = "ff00" ∧
    bootDevice.pomodoroConfig.breakColor = 0xFF00 ∧
    (handlePomodoroConfig bootDevice HttpMethod.HTTP_GET noParams).2 =
      ConfigReply.current 1500 300 900 "ff0000" "ff00" false true 128 ∧
    parseColor "ff00" = 0xFF00 ∧ parseColor "#ff00" = 0xFF00 ∧
    ((∀ (d : Device) (p : ConfigParams),
      (handlePomodoroConfig d HttpMethod.HTTP_GET p).2 =
        ConfigReply.current (d.pomodoroConfig.workTime / 1000)
          (d.pomodoroConfig.shortBreakTime / 1000) (d.pomodoroConfig.longBreakTime / 1000)
          (ultoa d.pomodoroConfig.workColor 16) (ultoa d.pomodoroConfig.breakColor 16)
          d.pomodoroConfig.workAnimation d.pomodoroConfig.breakAnimation
          d.pomodoroConfig.brightness) ∧
    parseColor (ultoa 0xFF00 16) = 0xFF00 ∧ parseColor ("#" ++ ultoa 0xFF00 16) = 0xFF00 ∧
    (∀ d : Device,
      (handlePomodoroConfig d HttpMethod.HTTP_POST
        (paramsWorkColorOf 0xFF00)).1.pomodoroConfig.workColor = 0xFF00 ∧
      (handlePomodoroConfig d HttpMethod.HTTP_POST
        (paramsBreakColorOf 0xFF00)).1.pomodoroConfig.breakColor = 0xFF00)) :=
  ⟨by decide, by decide, by decide, by decide, by decide, by decide,
   color_round_trip 0xFF00 (by decide)⟩

/-! ## Breathing animation: properties -/

theorem breathingStep_phase_bounds (F : FloatStep) (hinc : ∀ x, 0 ≤ x → x ≤ 1 → x ≤ F.inc x)
    (hdec : ∀ x, 0 ≤ x → x ≤ 1 → F.dec x ≤ x) (a : AnimationState)
    (h : 0 ≤ a.breathingPhase ∧ a.breathingPhase ≤ 1) :
    0 ≤ (breathingStep F a).breathingPhase ∧ (breathingStep F a).breathingPhase ≤ 1 := by
  unfold breathingStep
  by_cases hd : a.breathingDirection = true
  · by_cases hb : F.inc a.breathingPhase ≥ 1
    · simp [hd, hb]
    · have h1 := hinc a.breathingPhase h.1 h.2
      have h2 : F.inc a.breathingPhase < 1 := not_le.1 hb
      simp only [hd, if_true, hb, if_false]
      exact ⟨le_trans h.1 h1, le_of_lt h2⟩
  · by_cases hb : F.dec a.breathingPhase ≤ 0
    · simp [hd, hb]
    · have h1 := hdec a.breathingPhase h.1 h.2
      have h2 : 0 < F.dec a.breathingPhase := not_le.1 hb
      simp only [hd, if_false, hb]
      exact ⟨le_of_lt h2, le_trans h1 h.2⟩

theorem breathingSteps_phase_bounds (F : FloatStep) (hinc : ∀ x, 0 ≤ x → x ≤ 1 → x ≤ F.inc x)
    (hdec : ∀ x, 0 ≤ x → x ≤ 1 → F.dec x ≤ x) (n : Nat) (a : AnimationState)
    (h : 0 ≤ a.breathingPhase ∧ a.breathingPhase ≤ 1) :
    0 ≤ (breathingSteps F n a).breathingPhase ∧ (breathingSteps F n a).breathingPhase ≤ 1 := by
  induction n generalizing a with
  | zero => exact h
  | succ n ih => exact ih (breathingStep F a) (breathingStep_phase_bounds F hinc hdec a h)

theorem breathingCalls_phase_bounds (F : FloatStep) (hinc : ∀ x, 0 ≤ x → x ≤ 1 → x ≤ F.inc x)
    (hdec : ∀ x, 0 ≤ x → x ≤ 1 → F.dec x ≤ x) (nows : List Nat) (a : AnimationState)
    (h : 0 ≤ a.breathingPhase ∧ a.breathingPhase ≤ 1) :
    0 ≤ (breathingCalls F a nows).breathingPhase ∧
      (breathingCalls F a nows).breathingPhase ≤ 1 := by
  induction nows generalizing a with
  | nil => exact h
  | cons now nows ih =>
    have hstep : 0 ≤ (breathingAnimation F a now).breathingPhase ∧
        (breathingAnimation F a now).breathingPhase ≤ 1 := by
      unfold breathingAnimation
      split_ifs
      · exact breathingStep_phase_bounds F hinc hdec _ h
      · exact h
    have := ih (breathingAnimation F a now) hstep
    simpa only [breathingCalls, List.foldl_cons] using this

theorem breathingStep_flip (F : FloatStep) (a : AnimationState) :
    ((breathingStep F a).breathingDirection ≠ a.breathingDirection ↔
      (if a.breathingDirection then F.inc a.breathingPhase ≥ 1
        else F.dec a.breathingPhase ≤ 0)) ∧
    ((breathingStep F a).breathingDirection ≠ a.breathingDirection →
      (breathingStep F a).breathingPhase = if a.breathingDirection then 1 else 0) := by
  unfold breathingStep
  by_cases hd : a.breathingDirection = true
  · by_cases hb : F.inc a.breathingPhase ≥ 1
    · simp [hd, hb]
    · simp [hd, hb]
  · have hd2 : a.breathingDirection = false := by simpa using hd
    by_cases hb : F.dec a.breathingPhase ≤ 0
    · simp [hd2, hb]
    · simp [hd2, hb]

/-- C9: whatever the rounding of the `float` additions (as long as, on [0, 1], adding 0.05
does not decrease a value and subtracting 0.05 does not increase it), from the initial
animation state the phase lies in [0, 1] after any number `n` of animation steps and after any
sequence of calls of `breathingAnimation`; a step changes the direction exactly when the
stepped value reaches or passes its bound (`≥ 1` rising, `≤ 0` falling), and then the phase
is that bound itself. -/
theorem breathing_phase_bounded_and_flips_at_bounds (F : FloatStep)
    (hinc : ∀ x, 0 ≤ x → x ≤ 1 → x ≤ F.inc x) (hdec : ∀ x, 0 ≤ x → x ≤ 1 → F.dec x ≤ x)
    (n : Nat) (nows : List Nat) :
    (0 ≤ (breathingSteps F n animationInit).breathingPhase ∧
      (breathingSteps F n animationInit).breathingPhase ≤ 1) ∧
    (0 ≤ (breathingSteps F 10000 animationInit).breathingPhase ∧
      (breathingSteps F 10000 animationInit).breathingPhase ≤ 1) ∧
    (0 ≤ (breathingCalls F animationInit nows).breathingPhase ∧
      (breathingCalls F animationInit nows).breathingPhase ≤ 1) ∧
    (∀ a : AnimationState,
      ((breathingStep F a).breathingDirection ≠ a.breathingDirection ↔
        (if a.breathingDirection then F.inc a.breathingPhase ≥ 1
          else F.dec a.breathingPhase ≤ 0)) ∧
      ((breathingStep F a).breathingDirection ≠ a.breathingDirection →
        (breathingStep F a).breathingPhase = if a.breathingDirection then 1 else 0)) := by
  have h0 : (0 : ℚ) ≤ animationInit.breathingPhase ∧ animationInit.breathingPhase ≤ 1 := by
    simp [animationInit]
  exact ⟨breathingSteps_phase_bounds F hinc hdec n _ h0,
    breathingSteps_phase_bounds F hinc hdec 10000 _ h0,
    breathingCalls_phase_bounds F hinc hdec nows _ h0, breathingStep_flip F⟩

theorem breathing_phase_bounded_and_flips_at_bounds_witness :
    (∀ x : ℚ, 0 ≤ x → x ≤ 1 → x ≤ exactStep.inc x) ∧
    (∀ x : ℚ, 0 ≤ x → x ≤ 1 → exactStep.dec x ≤ x) ∧
    ((0 ≤ (breathingSteps exactStep 10000 animationInit).breathingPhase ∧
      (breathingSteps exactStep 10000 animationInit).breathingPhase ≤ 1) ∧
    (0 ≤ (breathingSteps exactStep 10000 animationInit).breathingPhase ∧
      (breathingSteps exactStep 10000 animationInit).breathingPhase ≤ 1) ∧
    (0 ≤ (breathingCalls exactStep animationInit [21, 30, 42]).breathingPhase ∧
      (breathingCalls exactStep animationInit [21, 30, 42]).breathingPhase ≤ 1) ∧
    (∀ a : AnimationState,
      ((breathingStep exactStep a).breathingDirection ≠ a.breathingDirection ↔
        (if a.breathingDirection then exactStep.inc a.breathingPhase ≥ 1
          else exactStep.dec a.breathingPhase ≤ 0)) ∧
      ((breathingStep exactStep a).breathingDirection ≠ a.breathingDirection →
        (breathingStep exactStep a).breathingPhase = if a.breathingDirection then 1 else 0))) :=
  ⟨fun x _ _ => by simp [exactStep], fun x _ _ => by simp [exactStep],
   breathing_phase_bounded_and_flips_at_bounds exactStep (fun x _ _ => by simp [exactStep])
     (fun x _ _ => by simp [exactStep]) 10000 [21, 30, 42]⟩

end LedTomato
